import Mathlib

/-!
A shallow embedding of the album-club bot's selection, rotation and reviewer
logic (src/albums.rs, src/main.rs), with theorems checking the design
specification's claims against it.

Modelling conventions:
- Spreadsheet reads are modelled as pure values held in a `Store` record; the
  claims under study assume the reads themselves succeed (network failure is
  out of scope of a shallow embedding).
- Rust `String::to_lowercase` is modelled by the character-wise `lowercase`
  below (the test data in all witnesses is ASCII, where the two agree).
- `rand::thread_rng().gen_range(0..n)` is modelled by an arbitrary draw
  `num : Nat` reduced as `num % n`; every index of a nonempty range is
  reachable.  For `n = 0` the Rust call panics, modelled by the explicit
  outcome `SelectOutcome.panicked`.
- `Vec::remove(0)` on an empty vector panics, modelled by
  `NameOutcome.panicked`.
- A `HashSet<String>` built by `FromIterator` is modelled as a `List.dedup`
  of the gathered cells: each distinct string appears exactly once, in some
  fixed order (the hash iteration order is arbitrary in Rust; only membership
  and multiplicity-one matter to the claims).
- `lock.shuffle(rng)` is modelled by an arbitrary function
  `shuffle : List String → List String` constrained, where a claim needs it,
  to be a permutation.
-/

namespace AlbumBot

/-- Structure `Album` from src/albums.rs: one parsed catalog row. -/
structure Album where
  name : String
  artist : String
  genre : String
  added_by : String
  row : Nat
deriving Repr, DecidableEq

/-- Function `album_from_vec` (src/albums.rs:88-120): parse one raw row into an
`Album`; field order in the cells is artist, name, genre, added_by. -/
def album_from_vec (values : List String) (row : Nat) : Except String Album :=
  if values.isEmpty then
    .error "No albums found"
  else
    match values.get? 0, values.get? 1, values.get? 2, values.get? 3 with
    | some artist, some nm, some genre, some added_by =>
        .ok { name := nm, artist := artist, genre := genre,
              added_by := added_by, row := row }
    | none, _, _, _ => .error "Unable to get album artist"
    | _, none, _, _ => .error "Unable to get album name"
    | _, _, none, _ => .error "Unable to get album genre"
    | _, _, _, none => .error "Unable to get album added_by"

/-- Rust `String::to_lowercase`, modelled character-wise over the string's
characters (the witnesses' data is ASCII, where this agrees with Rust's
Unicode lowercasing). -/
def lowercase (s : String) : String :=
  ⟨s.data.map Char.toLower⟩

/-- The three-way exclusion test of `select_random_album`
(src/albums.rs:204-206), in the source's order: rotation membership is an
exact `HashSet::contains`, the two other comparisons are lowercased. -/
def eligible (rotation : List String) (last_genre last_added_by : String)
    (album : Album) : Bool :=
  !(rotation.contains album.added_by)
    && (lowercase album.added_by != lowercase last_added_by)
    && (lowercase album.genre != lowercase last_genre)

/-- The filtering loop of `select_random_album` (src/albums.rs:199-210):
parse each row (any parse failure aborts the whole call), keep the eligible
ones in order. `i` is the running row index. -/
def filter_albums (rotation : List String) (last_genre last_added_by : String) :
    List (List String) → Nat → Except String (List Album)
  | [], _ => .ok []
  | x :: rest, i =>
    match album_from_vec x i with
    | .error e => .error e
    | .ok album =>
      match filter_albums rotation last_genre last_added_by rest (i + 1) with
      | .error e => .error e
      | .ok tail =>
        .ok (if eligible rotation last_genre last_added_by album
             then album :: tail else tail)

/-- Result of `select_random_album`: a chosen album, a propagated row-parse
error, or the panic that `gen_range(0..0)` raises on an empty range. -/
inductive SelectOutcome where
  | ok (album : Album)
  | err (msg : String)
  | panicked
deriving Repr, DecidableEq

/-- Function `select_random_album` (src/albums.rs:192-214): filter, then draw
`gen_range(0..row_count)` — which panics when `row_count = 0` — and index
the filtered list. The draw is modelled by `num % row_count`. -/
def select_random_album (spreadsheet : List (List String))
    (rotation : List String) (last_genre last_added_by : String)
    (num : Nat) : SelectOutcome :=
  match filter_albums rotation last_genre last_added_by spreadsheet 0 with
  | .error e => .err e
  | .ok [] => .panicked
  | .ok (x :: rest) =>
      .ok ((x :: rest).get ⟨num % (rest.length + 1), Nat.mod_lt _ (Nat.succ_pos _)⟩)

/-- Function `get_column_strings_as_hashset` (src/albums.rs:146-162): a missing
`values` field is swallowed by `Result::into_iter` (it yields nothing, not an
error), the rows are flattened into cells, and `HashSet::from_iter` keeps
each distinct string once (modelled by `List.dedup`). -/
def get_column_strings_as_hashset (values : Option (List (List String))) :
    List String :=
  ((values.elim [] id).flatten).dedup

/-- The spreadsheet-backed state the repo's methods read and write: the
rotation column's cells plus the raw contents of the other ranges. -/
structure Store where
  rotation : List String
  names_values : Option (List (List String))
  current_values : Option (List (List String))
deriving Repr, DecidableEq

/-- Function `get_rotation` (src/albums.rs:168-170): the rotation cells as a set. -/
def get_rotation (s : Store) : List String :=
  s.rotation.dedup

/-- Function `get_names` (src/albums.rs:164-166): the roster range as a set. -/
def get_names (s : Store) : List String :=
  get_column_strings_as_hashset s.names_values

/-- Function `is_full_rotation` (src/albums.rs:172-180): every roster name is in the
given rotation set. -/
def is_full_rotation (names rotation : List String) : Bool :=
  names.all (fun n => rotation.contains n)

/-- Function `clear_rotation` (src/albums.rs:182-190): clear the rotation range. -/
def clear_rotation (s : Store) : Store :=
  { s with rotation := [] }

/-- Function `add_name_to_rotation` (src/albums.rs:219-237): append the name to the
rotation range, re-read the rotation as a set, insert the name, and clear
the range when the roster is contained in that set. -/
def add_name_to_rotation (s : Store) (nm : String) : Store :=
  let s1 : Store := { s with rotation := s.rotation ++ [nm] }
  let rot : List String := nm :: get_rotation s1
  if is_full_rotation (get_names s1) rot then clear_rotation s1 else s1

/-- Function `get_current` (src/albums.rs:265-281): flatten the `Ratings!A2:D2` read
and parse it as an album (row index 0); a missing `values` field is an
error here. -/
def get_current (s : Store) : Except String Album :=
  match s.current_values with
  | none => .error "Unable to get current album"
  | some vals => album_from_vec vals.flatten 0

/-- Function `reset_reviewers` (src/albums.rs:239-249): read the current album, read
the roster, and install the roster minus the current contributor (exact
string comparison) as the new reviewer queue. No shuffle happens here. -/
def reset_reviewers (s : Store) : Except String (List String) :=
  match get_current s with
  | .error e => .error e
  | .ok current =>
      .ok ((get_names s).filter (fun n => n != current.added_by))

/-- Result of `get_random_name`: a popped name with the remaining queue, a
propagated read error, or the panic of `Vec::remove(0)` on an empty queue. -/
inductive NameOutcome where
  | ok (nm : String) (rest : List String)
  | err (msg : String)
  | panicked
deriving Repr, DecidableEq

/-- Function `get_random_name` (src/albums.rs:251-264): if the queue is empty, refill
it with the shuffled roster-minus-current-contributor list, then
`remove(0)` — which panics when the queue is still empty. -/
def get_random_name (shuffle : List String → List String) (s : Store)
    (persons : List String) : NameOutcome :=
  if persons.length = 0 then
    match get_current s with
    | .error e => .err e
    | .ok current =>
      match shuffle ((get_names s).filter (fun n => n != current.added_by)) with
      | [] => .panicked
      | x :: rest => .ok x rest
  else
    match persons with
    | [] => .panicked
    | x :: rest => .ok x rest

/-- Repeated `get_random_name` calls against an unchanged store, collecting
the returned names; stops early on an error or panic. -/
def run_next_n (shuffle : List String → List String) (s : Store) :
    List String → Nat → List String
  | _, 0 => []
  | persons, n + 1 =>
    match get_random_name shuffle s persons with
    | .ok x rest => x :: run_next_n shuffle s rest n
    | _ => []

/-- Structure `AlbumAndLink` (src/main.rs:25-28). -/
structure AlbumAndLink where
  album : Album
  link : Option String
deriving Repr, DecidableEq

/-- The `Display` text of `Album` (src/albums.rs:40-48). -/
def album_display (a : Album) : String :=
  "Album: " ++ a.name ++ ", Artist: " ++ a.artist ++ ", Genre: " ++ a.genre
    ++ ", Added By: " ++ a.added_by

/-- Function `AlbumAndLink::as_message` (src/main.rs:30-41). -/
def as_message (a : AlbumAndLink) : String :=
  match a.link with
  | some l => "The next album is " ++ album_display a.album ++ " \n " ++ l
  | none =>
      "The next album is " ++ album_display a.album
        ++ " \n I had some trouble finding it on Spotify though."

/-- What the synchronous part of `get_next_album` produces: the reply text,
the prefetch slot as it stands when the lock is released, and the
contributor a background rotation-record task was spawned for (`none` when
no task was spawned). -/
structure NextAlbumResult where
  message : String
  slot_after : Option AlbumAndLink
  spawned_record : Option String
deriving Repr, DecidableEq

/-- Function `get_next_album` (src/main.rs:60-77): when the slot is populated it is
read through `lock.as_ref()` — never taken out — the message is built from
it and a background task is spawned for its contributor; when the slot is
empty a booting-up placeholder is returned and nothing is spawned. -/
def get_next_album (slot : Option AlbumAndLink) : NextAlbumResult :=
  match slot with
  | some a =>
      { message := as_message a, slot_after := some a,
        spawned_record := some a.album.added_by }
  | none =>
      { message := "Hold on, I\x27m still booting up.", slot_after := none,
        spawned_record := none }

/-- Outcome of the detached task spawned by `get_next_album`
(src/main.rs:70-75), as a function of the results of its two awaited
calls: `add_name_to_rotation(..).unwrap()` turns a store failure into a
panic, while a `set_next_album` failure is logged by `unwrap_or_else`. -/
inductive TaskOutcome where
  | completed
  | loggedError
  | panicked
deriving Repr, DecidableEq

/-- The body of the `tokio::spawn`ed block in `get_next_album`
(src/main.rs:70-75). -/
def rotation_refresh_task (record_result recompute_result : Except String Unit) :
    TaskOutcome :=
  match record_result with
  | .error _ => .panicked
  | .ok _ =>
    match recompute_result with
    | .error _ => .loggedError
    | .ok _ => .completed

/-! Concrete stores used by witnesses and counterexamples. -/

/-- Roster {"a","b"}, current album contributed by "a". -/
def store_two_names_current_a : Store :=
  { rotation := [], names_values := some [["a"], ["b"]],
    current_values := some [["X", "Nm", "rock", "a"]] }

/-- Roster {"a","b"}, current album contributed by "c". -/
def store_two_names_current_c : Store :=
  { rotation := [], names_values := some [["a"], ["b"]],
    current_values := some [["X", "Nm", "rock", "c"]] }

/-- Roster {"amy"}, current album contributed by "amy". -/
def store_roster_only_current : Store :=
  { rotation := [], names_values := some [["amy"]],
    current_values := some [["X", "A", "rock", "amy"]] }

/-- Roster {"Amy"} (capitalised), current album contributed by "amy". -/
def store_roster_case_mismatch : Store :=
  { rotation := [], names_values := some [["Amy"]],
    current_values := some [["X", "A", "rock", "amy"]] }

/-- Missing roster range, nonempty rotation. -/
def store_empty_roster : Store :=
  { rotation := ["x"], names_values := none, current_values := none }

/-- Roster {"amy","bob","carl"}, empty rotation. -/
def store_three_roster : Store :=
  { rotation := [], names_values := some [["amy"], ["bob"], ["carl"]],
    current_values := none }

/-- A sample parsed album. -/
def sample_album : Album :=
  { name := "A", artist := "X", genre := "jazz", added_by := "bob", row := 0 }

/-- A sample prefetched value without a link. -/
def sample_album_and_link : AlbumAndLink :=
  { album := sample_album, link := none }

/-! Helper lemmas. -/

/-- Every album kept by the filtering loop passes the eligibility test. -/
theorem filter_albums_ok_eligible (rotation : List String)
    (last_genre last_added_by : String) :
    ∀ (rows : List (List String)) (i : Nat) (l : List Album),
      filter_albums rotation last_genre last_added_by rows i = .ok l →
      ∀ b ∈ l, eligible rotation last_genre last_added_by b = true := by
  intro rows
  induction rows with
  | nil =>
    intro i l h b hb
    simp only [filter_albums, Except.ok.injEq] at h
    subst h
    cases hb
  | cons x rest ih =>
    intro i l h b hb
    simp only [filter_albums] at h
    split at h
    · cases h
    · rename_i album hx
      split at h
      · cases h
      · rename_i tail hr
        by_cases he : eligible rotation last_genre last_added_by album = true
        · rw [if_pos he] at h
          injection h with h2
          subst h2
          rcases List.mem_cons.mp hb with rfl | hb2
          · exact he
          · exact ih (i + 1) tail hr b hb2
        · rw [if_neg he] at h
          injection h with h2
          subst h2
          exact ih (i + 1) tail hr b hb

/-- The fullness test run by `add_name_to_rotation`, as a membership
statement about the pre-state. -/
theorem full_cond_iff (s : Store) (nm : String) :
    is_full_rotation (get_names s)
        (nm :: get_rotation { s with rotation := s.rotation ++ [nm] }) = true
      ↔ ∀ n ∈ get_names s, n ∈ s.rotation ∨ n = nm := by
  simp only [is_full_rotation, List.all_eq_true, get_rotation]
  constructor
  · intro h n hn
    have h2 := h n hn
    simp [List.mem_dedup] at h2
    tauto
  · intro h n hn
    have h2 := h n hn
    simp [List.mem_dedup]
    tauto

/-- What `add_name_to_rotation` does to the rotation range: either it clears
it (exactly when the roster is contained in the old rotation plus the new
name), or it leaves the appended list in place. -/
theorem add_name_rotation_cases (s : Store) (nm : String) :
    (add_name_to_rotation s nm).rotation = []
        ∧ (∀ n ∈ get_names s, n ∈ s.rotation ∨ n = nm)
    ∨ (add_name_to_rotation s nm).rotation = s.rotation ++ [nm]
        ∧ ¬(∀ n ∈ get_names s, n ∈ s.rotation ∨ n = nm) := by
  simp only [add_name_to_rotation]
  split
  · rename_i hfull
    exact Or.inl ⟨rfl, (full_cond_iff s nm).mp hfull⟩
  · rename_i hfull
    exact Or.inr ⟨rfl, fun hc => hfull ((full_cond_iff s nm).mpr hc)⟩

/-- `add_name_to_rotation` never changes the roster range. -/
theorem get_names_add_name (s : Store) (nm : String) :
    get_names (add_name_to_rotation s nm) = get_names s := by
  simp only [add_name_to_rotation]
  split
  · rfl
  · rfl

/-! Claim theorems. -/

/-- C1: the claim says that on an empty filtered set `select_random_album`
fails with `NoEligibleCandidate` and never panics.  The source instead calls
`gen_range(0..0)`, which panics: whenever the filter keeps zero rows, the
outcome is the panic, not an error value. -/
theorem select_empty_filter_panics (spreadsheet : List (List String))
    (rotation : List String) (last_genre last_added_by : String) (num : Nat)
    (h : filter_albums rotation last_genre last_added_by spreadsheet 0 = .ok []) :
    select_random_album spreadsheet rotation last_genre last_added_by num
      = .panicked := by
  unfold select_random_album
  rw [h]

/-- Witness for C1: the spec's own scenario — one catalog row whose genre
equals the last genre — filters to the empty list and panics. -/
theorem select_empty_filter_panics_witness :
    filter_albums [] "rock" "carl" [["X", "A", "rock", "bob"]] 0 = .ok []
    ∧ select_random_album [["X", "A", "rock", "bob"]] [] "rock" "carl" 0
        = .panicked :=
  ⟨by rfl, select_empty_filter_panics [["X", "A", "rock", "bob"]] [] "rock" "carl" 0 (by rfl)⟩

/-- C2: any album returned successfully by `select_random_album` satisfies
all three exclusion predicates: its contributor is not in the rotation set
(exact comparison), and its lowercased contributor and genre differ from the
lowercased last contributor and last genre. -/
theorem select_ok_eligible (spreadsheet : List (List String))
    (rotation : List String) (last_genre last_added_by : String) (num : Nat)
    (a : Album)
    (h : select_random_album spreadsheet rotation last_genre last_added_by num
          = .ok a) :
    a.added_by ∉ rotation
    ∧ lowercase a.added_by ≠ lowercase last_added_by
    ∧ lowercase a.genre ≠ lowercase last_genre := by
  unfold select_random_album at h
  cases hf : filter_albums rotation last_genre last_added_by spreadsheet 0 with
  | error e => rw [hf] at h; cases h
  | ok filtered =>
    rw [hf] at h
    cases filtered with
    | nil => cases h
    | cons x rest =>
      injection h with h2
      have hmem : a ∈ x :: rest := h2 ▸ List.get_mem _ _ _
      have he : eligible rotation last_genre last_added_by a = true :=
        filter_albums_ok_eligible rotation last_genre last_added_by
          spreadsheet 0 (x :: rest) hf a hmem
      simp only [eligible, Bool.and_eq_true, Bool.not_eq_true', bne_iff_ne] at he
      obtain ⟨⟨h1, hlab⟩, hlg⟩ := he
      refine ⟨?_, hlab, hlg⟩
      simpa using h1

/-- Witness for C2: a concrete catalog of one eligible row. -/
theorem select_ok_eligible_witness :
    (Album.mk "A" "X" "jazz" "bob" 0).added_by ∉ (["x"] : List String)
    ∧ lowercase (Album.mk "A" "X" "jazz" "bob" 0).added_by ≠ lowercase "carl"
    ∧ lowercase (Album.mk "A" "X" "jazz" "bob" 0).genre ≠ lowercase "rock" :=
  select_ok_eligible [["X", "A", "jazz", "bob"]] ["x"] "rock" "carl" 0
    (Album.mk "A" "X" "jazz" "bob" 0) (by decide)

/-- C3: `add_name_to_rotation` appends the id to the rotation range and then
clears the range exactly when the roster is contained in the old rotation
plus the id; and if a call does not clear, a second call with the same id
does not clear either (duplicates do not double-count toward fullness). -/
theorem add_name_to_rotation_clears_iff_full (s : Store) (nm : String) :
    ((add_name_to_rotation s nm).rotation = []
        ∨ (add_name_to_rotation s nm).rotation = s.rotation ++ [nm])
    ∧ ((add_name_to_rotation s nm).rotation = []
        ↔ ∀ n ∈ get_names s, n ∈ s.rotation ∨ n = nm)
    ∧ ((add_name_to_rotation s nm).rotation ≠ [] →
        (add_name_to_rotation (add_name_to_rotation s nm) nm).rotation ≠ []) := by
  obtain ⟨hrot, hcond⟩ | ⟨hrot, hcond⟩ := add_name_rotation_cases s nm
  · refine ⟨Or.inl hrot, ⟨fun _ => hcond, fun _ => hrot⟩, fun hne => absurd hrot hne⟩
  · have happ : s.rotation ++ [nm] ≠ [] := by simp
    refine ⟨Or.inr hrot, ⟨fun he => absurd (hrot ▸ he) happ, fun hc => absurd hc hcond⟩, ?_⟩
    intro _
    obtain ⟨hrot2, hcond2⟩ | ⟨hrot2, _⟩ := add_name_rotation_cases (add_name_to_rotation s nm) nm
    · exfalso
      apply hcond
      intro n hn
      have hn2 : n ∈ get_names (add_name_to_rotation s nm) := by
        rw [get_names_add_name]; exact hn
      have h3 := hcond2 n hn2
      rw [hrot] at h3
      rcases h3 with hmem | rfl
      · rcases List.mem_append.mp hmem with hmem2 | hmem2
        · exact Or.inl hmem2
        · exact Or.inr (by simpa using hmem2)
      · exact Or.inr rfl
    · rw [hrot2, hrot]
      simp

/-- Witness for C3: roster {"amy","bob","carl"}, empty rotation; adding
"amy" does not clear, and adding "amy" again still does not clear. -/
theorem add_name_to_rotation_clears_iff_full_witness :
    ((add_name_to_rotation store_three_roster "amy").rotation = []
        ∨ (add_name_to_rotation store_three_roster "amy").rotation
            = store_three_roster.rotation ++ ["amy"])
    ∧ ((add_name_to_rotation store_three_roster "amy").rotation = []
        ↔ ∀ n ∈ get_names store_three_roster,
            n ∈ store_three_roster.rotation ∨ n = "amy")
    ∧ (add_name_to_rotation (add_name_to_rotation store_three_roster "amy")
          "amy").rotation ≠ [] :=
  ⟨(add_name_to_rotation_clears_iff_full store_three_roster "amy").1,
   (add_name_to_rotation_clears_iff_full store_three_roster "amy").2.1,
   (add_name_to_rotation_clears_iff_full store_three_roster "amy").2.2 (by decide)⟩

/-- C10: a missing or empty roster read is reported as the empty set (not an
error), `is_full_rotation` on an empty roster is vacuously true for every
rotation, and hence every `add_name_to_rotation` call clears the rotation
range. -/
theorem empty_roster_always_clears (s : Store) (nm : String)
    (rot : List String) (h : get_names s = []) :
    get_column_strings_as_hashset none = ([] : List String)
    ∧ is_full_rotation (get_names s) rot = true
    ∧ (add_name_to_rotation s nm).rotation = [] := by
  refine ⟨rfl, ?_, ?_⟩
  · rw [h]; rfl
  · obtain ⟨hrot, _⟩ | ⟨_, hcond⟩ := add_name_rotation_cases s nm
    · exact hrot
    · exact absurd (fun n hn => absurd (h ▸ hn) (List.not_mem_nil n)) hcond

/-- Witness for C10: a store whose roster range read has no values. -/
theorem empty_roster_always_clears_witness :
    get_column_strings_as_hashset none = ([] : List String)
    ∧ is_full_rotation (get_names store_empty_roster) ["bob"] = true
    ∧ (add_name_to_rotation store_empty_roster "amy").rotation = [] :=
  empty_roster_always_clears store_empty_roster "amy" ["bob"] rfl

/-- C4 counterexample: the claim says `get_next_album` takes the populated
value out so the cache is empty afterwards.  The source reads the slot with
`lock.as_ref()` and never removes it: after serving a populated slot the
slot still holds the same value. -/
theorem get_next_album_slot_not_emptied_cex :
    (get_next_album (some sample_album_and_link)).slot_after
        = some sample_album_and_link
    ∧ (get_next_album (some sample_album_and_link)).slot_after ≠ none :=
  ⟨rfl, by decide⟩

/-- C4 amended: `get_next_album` leaves the prefetch slot exactly as it
found it; on a populated slot it serves that value's message and spawns a
rotation-record task for its contributor; on an empty slot it returns the
booting-up placeholder and spawns nothing. -/
theorem get_next_album_amended (slot : Option AlbumAndLink) :
    (get_next_album slot).slot_after = slot
    ∧ (slot = none →
        (get_next_album slot).message = "Hold on, I\x27m still booting up."
        ∧ (get_next_album slot).spawned_record = none)
    ∧ (∀ a, slot = some a →
        (get_next_album slot).message = as_message a
        ∧ (get_next_album slot).spawned_record = some a.album.added_by) := by
  cases slot with
  | none =>
    refine ⟨rfl, fun _ => ⟨rfl, rfl⟩, fun a h => ?_⟩
    cases h
  | some a =>
    refine ⟨rfl, fun h => ?_, fun b h => ?_⟩
    · cases h
    · cases h
      exact ⟨rfl, rfl⟩

/-- Witness for the amended C4: a concrete populated slot. -/
theorem get_next_album_amended_witness :
    (get_next_album (some sample_album_and_link)).message
        = as_message sample_album_and_link
    ∧ (get_next_album (some sample_album_and_link)).spawned_record
        = some sample_album_and_link.album.added_by :=
  (get_next_album_amended (some sample_album_and_link)).2.2
    sample_album_and_link rfl

/-- C5: the claim says a failure of the background rotation-record step is
logged and never becomes a panic.  The source calls
`add_name_to_rotation(..).unwrap()` inside the spawned task, so a store
failure on the record step panics the detached task (only the recompute
step is handled with a logging fallback). -/
theorem background_task_record_failure_panics :
    rotation_refresh_task (.error "store unavailable") (.ok ()) = .panicked
    ∧ rotation_refresh_task (.ok ()) (.error "store unavailable") = .loggedError :=
  ⟨rfl, rfl⟩

/-- C6: the claim says `get_random_name` never fails once roster data is
readable, even when the roster minus the current contributor is empty.  The
source calls `Vec::remove(0)` on the refilled queue, which panics when
roster = {"amy"} and the current album was contributed by "amy". -/
theorem get_random_name_empty_queue_panics :
    get_random_name (fun l => l) store_roster_only_current [] = .panicked := by
  decide

/-- Roster sets, being hash sets, are duplicate-free. -/
theorem get_names_nodup (s : Store) : (get_names s).Nodup := by
  unfold get_names get_column_strings_as_hashset
  exact List.nodup_dedup _

/-- Popping a queue of length `n = q.length` with `run_next_n` returns the
queue's own elements in order. -/
theorem run_next_n_pop (shuffle : List String → List String) (s : Store) :
    ∀ q : List String, run_next_n shuffle s q q.length = q := by
  intro q
  induction q with
  | nil => rfl
  | cons x rest ih =>
    have hg : get_random_name shuffle s (x :: rest) = .ok x rest := rfl
    show run_next_n shuffle s (x :: rest) (rest.length + 1) = x :: rest
    simp only [run_next_n, hg, ih]

/-- The empty-queue path of `get_random_name`, with the current-album read
resolved. -/
theorem get_random_name_refill (shuffle : List String → List String)
    (s : Store) (cur : Album) (hcur : get_current s = .ok cur) :
    get_random_name shuffle s []
      = match shuffle ((get_names s).filter (fun n => n != cur.added_by)) with
        | [] => .panicked
        | x :: rest => .ok x rest := by
  unfold get_random_name
  rw [hcur]
  rfl

/-- Removing one occurrence of a present element from a duplicate-free list
by filtering shortens it by exactly one. -/
theorem length_filter_ne_of_nodup (l : List String) (c : String)
    (hnd : l.Nodup) (hm : c ∈ l) :
    (l.filter (fun n => n != c)).length + 1 = l.length := by
  have h1 := List.length_eq_length_filter_add (l := l) (fun n => n != c)
  have h2 : l.filter (fun a => !(a != c)) = l.filter (fun a => a == c) :=
    List.filter_congr (fun a _ => by simp [bne])
  have h3 : (l.filter (fun a => a == c)).length = l.count c := by
    rw [List.count_eq_countP, List.countP_eq_length_filter]
  have h4 : l.count c = 1 := List.count_eq_one_of_mem hnd hm
  rw [h2, h3, h4] at h1
  omega

/-- C7: after a refill via `reset_reviewers` the queue holds exactly the
roster members other than the current album's contributor, each once; its
length is the roster size minus one when the contributor is on the roster;
popping it `q.length` times returns each eligible name exactly once in
order; and the refill path of `get_random_name` never returns the current
contributor and installs a permutation of the same eligible set. -/
theorem reset_then_next_covers_eligible (shuffle : List String → List String)
    (s : Store) (cur : Album) (q : List String)
    (hperm : ∀ l, (shuffle l).Perm l)
    (hcur : get_current s = .ok cur)
    (hq : reset_reviewers s = .ok q) :
    q.Nodup
    ∧ (∀ x, x ∈ q ↔ x ∈ get_names s ∧ x ≠ cur.added_by)
    ∧ (cur.added_by ∈ get_names s → q.length + 1 = (get_names s).length)
    ∧ run_next_n shuffle s q q.length = q
    ∧ (∀ x rest, get_random_name shuffle s [] = .ok x rest →
        x ≠ cur.added_by ∧ (x :: rest).Perm q) := by
  unfold reset_reviewers at hq
  rw [hcur] at hq
  injection hq with hq2
  have hqe : q = (get_names s).filter (fun n => n != cur.added_by) := hq2.symm
  subst hqe
  refine ⟨(get_names_nodup s).filter _, ?_, ?_, run_next_n_pop shuffle s _, ?_⟩
  · intro x
    simp [List.mem_filter, bne_iff_ne]
  · intro hm
    exact length_filter_ne_of_nodup (get_names s) cur.added_by (get_names_nodup s) hm
  · intro x rest hg
    rw [get_random_name_refill shuffle s cur hcur] at hg
    cases hs : shuffle ((get_names s).filter (fun n => n != cur.added_by)) with
    | nil => rw [hs] at hg; exact NameOutcome.noConfusion hg
    | cons y ys =>
      rw [hs] at hg
      injection hg with hy hys
      subst hy
      subst hys
      have hmem : y ∈ (get_names s).filter (fun n => n != cur.added_by) :=
        (hperm _).mem_iff.mp (by rw [hs]; exact List.mem_cons_self _ _)
      refine ⟨bne_iff_ne.mp (List.mem_filter.mp hmem).2, ?_⟩
      rw [← hs]
      exact hperm _

/-- Witness for C7: roster {"a","b"}, current contributor "a", identity
shuffle; the reset queue is ["b"]. -/
theorem reset_then_next_covers_eligible_witness :
    (["b"] : List String).Nodup
    ∧ (∀ x, x ∈ (["b"] : List String)
        ↔ x ∈ get_names store_two_names_current_a
          ∧ x ≠ (Album.mk "Nm" "X" "rock" "a" 0).added_by)
    ∧ ((Album.mk "Nm" "X" "rock" "a" 0).added_by ∈ get_names store_two_names_current_a →
        (["b"] : List String).length + 1 = (get_names store_two_names_current_a).length)
    ∧ run_next_n (fun l => l) store_two_names_current_a ["b"]
        (["b"] : List String).length = ["b"]
    ∧ (∀ x rest, get_random_name (fun l => l) store_two_names_current_a [] = .ok x rest →
        x ≠ (Album.mk "Nm" "X" "rock" "a" 0).added_by ∧ (x :: rest).Perm ["b"]) :=
  reset_then_next_covers_eligible (fun l => l) store_two_names_current_a
    (Album.mk "Nm" "X" "rock" "a" 0) ["b"] (fun l => List.Perm.refl l) rfl rfl

/-- The reviewer-queue recomputation as the spec describes it for both
paths: read the current album's contributor, read the roster, take the
roster minus that contributor, and randomly permute the result before
installing it.  This is the spec's wording for `reset_reviewers`, to be
compared with the source's `reset_reviewers` (which does not shuffle). -/
def reset_reviewers_spec (shuffle : List String → List String) (s : Store) :
    Except String (List String) :=
  match get_current s with
  | .error e => .error e
  | .ok current =>
      .ok (shuffle ((get_names s).filter (fun n => n != current.added_by)))

/-- C8 counterexample: with roster {"a","b"}, current contributor "c" and
the reversal permutation as the random draw, the source's
`reset_reviewers` installs ["a","b"] while the spec's recomputation (the
one the refill path of `get_random_name` performs) installs ["b","a"]:
the two paths do not recompute the queue the same way. -/
theorem reset_reviewers_no_shuffle_cex :
    reset_reviewers store_two_names_current_c = .ok ["a", "b"]
    ∧ reset_reviewers_spec List.reverse store_two_names_current_c = .ok ["b", "a"]
    ∧ get_random_name List.reverse store_two_names_current_c [] = .ok "b" ["a"]
    ∧ (["a", "b"] : List String) ≠ ["b", "a"] :=
  ⟨rfl, rfl, by decide, by decide⟩

/-- C8 amended: `reset_reviewers` installs the roster-minus-current list
without the random permutation step, while the empty-queue refill path of
`get_random_name` installs the shuffled list (and pops its head); the two
paths agree on the set of names but not on the permutation step. -/
theorem reset_vs_refill_amended (shuffle : List String → List String)
    (s : Store) (cur : Album) (hcur : get_current s = .ok cur) :
    reset_reviewers s = .ok ((get_names s).filter (fun n => n != cur.added_by))
    ∧ reset_reviewers s = reset_reviewers_spec (fun l => l) s
    ∧ (∀ x rest, get_random_name shuffle s [] = .ok x rest →
        x :: rest = shuffle ((get_names s).filter (fun n => n != cur.added_by))) := by
  refine ⟨?_, rfl, ?_⟩
  · unfold reset_reviewers
    rw [hcur]
  · intro x rest hg
    rw [get_random_name_refill shuffle s cur hcur] at hg
    cases hs : shuffle ((get_names s).filter (fun n => n != cur.added_by)) with
    | nil => rw [hs] at hg; exact NameOutcome.noConfusion hg
    | cons y ys =>
      rw [hs] at hg
      injection hg with hy hys
      subst hy
      subst hys
      rfl

/-- Witness for the amended C8: the concrete store of the counterexample. -/
theorem reset_vs_refill_amended_witness :
    reset_reviewers store_two_names_current_c
        = .ok ((get_names store_two_names_current_c).filter
            (fun n => n != (Album.mk "Nm" "X" "rock" "c" 0).added_by))
    ∧ ("b" :: ["a"]
        = List.reverse ((get_names store_two_names_current_c).filter
            (fun n => n != (Album.mk "Nm" "X" "rock" "c" 0).added_by))) :=
  ⟨(reset_vs_refill_amended List.reverse store_two_names_current_c
      (Album.mk "Nm" "X" "rock" "c" 0) rfl).1,
   (reset_vs_refill_amended List.reverse store_two_names_current_c
      (Album.mk "Nm" "X" "rock" "c" 0) rfl).2.2 "b" ["a"] (by decide)⟩

/-- C9: the rotation-membership test of the selection filter and the
current-contributor exclusion of the reviewer refill are case-sensitive
exact comparisons: a row whose contributor "bob" appears in the rotation
as "Bob" is selectable, and a roster entry "Amy" survives the refill
exclusion of current contributor "amy"; only the genre and last-contributor
comparisons are lowercased (a "Rock" row is excluded against last genre
"rock", and a "Carl" row against last contributor "carl"). -/
theorem case_sensitive_rotation_and_refill :
    select_random_album [["X", "A", "jazz", "bob"]] ["Bob"] "rock" "carl" 0
        = .ok (Album.mk "A" "X" "jazz" "bob" 0)
    ∧ get_random_name (fun l => l) store_roster_case_mismatch [] = .ok "Amy" []
    ∧ select_random_album [["X", "A", "Rock", "bob"]] [] "rock" "carl" 0 = .panicked
    ∧ select_random_album [["X", "A", "jazz", "Carl"]] [] "rock" "carl" 0 = .panicked :=
  ⟨by decide, by decide, by decide, by decide⟩

end AlbumBot
